import Mathlib

/-!
# Verification of the CAGRA search-plan and driver layer

Shallow embedding, in Lean 4, of the search-plan resolution and driver code of
the CAGRA approximate nearest-neighbor engine:

* `single_cta_search::search::set_params` and the `SET_KERNEL` dispatch macro
  (cpp/include/raft/neighbors/detail/cagra/search_single_cta.cuh),
* `multi_cta_search::search::set_params`, `set_value_batch` and
  `multi_cta_search::search::operator()` (search_multi_cta.cuh),
* `ivf_flat::detail::serialize` / `deserialize`
  (cpp/include/raft/spatial/knn/detail/ivf_flat_build.cuh).

Machine integers are modelled as `Nat`; all quantities involved stay far below
`2^32`, and the plan-resolution arithmetic in the source never overflows for
the ranges its own checks admit.  `RAFT_EXPECTS(cond, msg)` raises a
configuration error when `cond` is false; we model a function containing such
checks as returning `Except ConfigError _`, with one error tag per check, in
the order the checks appear in the source.

Components the plan layer calls whose sources are outside this tree
(`topk_for_cagra/topk_core.cuh`, `hashmap.hpp`, the traversal kernels and the
IVF-flat index constructor) are modelled from the specification; each such
definition carries a doc comment saying so.
-/

namespace Raft

/-- Configuration errors: one tag per `RAFT_EXPECTS` / `RAFT_FAIL` check in the
plan-resolution code, in source order. -/
inductive ConfigError where
  | itopkTooLarge
  | resultBufferTooLarge
  | blockSizeTooSmall
  | blockSizeTooLarge
  | loadBitLengthNotDivisor
  | loadBitLengthTooSmall
  deriving DecidableEq, Repr

/-- `raft::Pow2<32>::roundUp`: round up to a multiple of 32. -/
def roundUp32 (x : Nat) : Nat := (x + 31) / 32 * 32

/-- Modelled from the spec: `hashmap::get_size(bitlen)` (hashmap.hpp is not in
this tree).  The visited-set backing store is a power-of-two-sized table of
`2^bitlen` entries. -/
def hashmap_get_size (bitlen : Nat) : Nat := 2 ^ bitlen

/-- `utils::get_max_value<uint32_t>()`: the maximum `uint32` value, used as the
"empty" sentinel of the visited-set hash table. -/
def max_value_u32 : Nat := 2 ^ 32 - 1

/-- The block-size growth loop shared by both plans:
`while (smem_size > ulimit_smem_size_cta32 / 32 * block_size) block_size *= 2;`
with `ulimit_smem_size_cta32 / 32 = 4096 / 32 = 128`. -/
def grow_block_smem (smem_size bs : Nat) : Nat :=
  if h0 : bs = 0 then bs
  else if h1 : 128 * bs < smem_size then grow_block_smem smem_size (bs * 2)
  else bs
termination_by smem_size - 128 * bs
decreasing_by
  simp_wf
  omega

/-- The occupancy block-size growth loop:
`while ((block_size < max_block_size) && (graph_degree * num_parents * team_size
>= block_size * 2) && (ctas * queries <= (1024 / (block_size * 2)) * mpc))
block_size *= 2;`.  The single-CTA plan uses `ctas = 1`; the multi-CTA plan
uses `ctas = num_cta_per_query`. -/
def grow_block_occupancy (deg par team ctas queries mpc bs : Nat) : Nat :=
  if h0 : bs = 0 then bs
  else if h1 : bs < 1024 ∧ bs * 2 ≤ deg * par * team ∧
      ctas * queries ≤ 1024 / (bs * 2) * mpc then
    grow_block_occupancy deg par team ctas queries mpc (bs * 2)
  else bs
termination_by 1024 - bs
decreasing_by
  simp_wf
  omega

/-- The radix-topk minimum-block-size loop of the single-CTA plan:
`block_size = min_block_size_radix; while ((block_size < max_block_size) &&
(max_itopk / block_size > 4)) block_size *= 2;` with `max_itopk = 512`. -/
def grow_block_radix (bs : Nat) : Nat :=
  if h0 : bs = 0 then bs
  else if h1 : bs < 1024 ∧ 4 < 512 / bs then grow_block_radix (bs * 2)
  else bs
termination_by 1024 - bs
decreasing_by
  simp_wf
  omega

/-- One halving step of the `load_bit_length` auto-resolution loop
`while (total_bit_length % load_bit_length) load_bit_length /= 2;`,
with an explicit step bound (the loop starts at 128 and halves, so it takes
at most 8 steps before reaching 1, where `total % 1 = 0` stops it). -/
def resolve_load_bit_halve (total : Nat) : Nat → Nat → Nat
  | cur, 0 => cur
  | cur, fuel + 1 =>
    if total % cur = 0 then cur
    else resolve_load_bit_halve total (cur / 2) fuel

/-- The `load_bit_length` auto-resolution:
`load_bit_length = 128; while (total_bit_length % load_bit_length)
load_bit_length /= 2;`. -/
def resolve_load_bit_loop (total : Nat) : Nat :=
  resolve_load_bit_halve total 128 8

/-- The load-bit-length block shared verbatim by both `set_params` bodies
(search_single_cta.cuh lines 303-317, search_multi_cta.cuh lines 252-268):
auto-resolve when unset, then
`RAFT_EXPECTS(total_bit_length % load_bit_length == 0, ...)` and
`RAFT_EXPECTS(load_bit_length >= 64, ...)`. -/
def load_bit_length_checks (user_lbl total_bit_length : Nat) :
    Except ConfigError Nat :=
  let lbl := if user_lbl = 0 then resolve_load_bit_loop total_bit_length
             else user_lbl
  if total_bit_length % lbl ≠ 0 then .error .loadBitLengthNotDivisor
  else if lbl < 64 then .error .loadBitLengthTooSmall
  else .ok lbl

/-- The fields of `search_plan_impl` that the plan-resolution code reads or
writes, plus the element sizes fixed by the template instantiation
(`sizeof(DATA_T)`, `sizeof(INDEX_T)`, `sizeof(DISTANCE_T)` in bytes). -/
structure SearchPlanImpl where
  max_queries : Nat
  itopk_size : Nat
  team_size : Nat
  num_parents : Nat
  min_iterations : Nat
  max_iterations : Nat
  load_bit_length : Nat
  thread_block_size : Nat
  max_dim : Nat
  dim : Nat
  graph_degree : Nat
  topk : Nat
  hash_bitlen : Nat
  small_hash_bitlen : Nat
  result_buffer_size : Nat
  smem_size : Nat
  hashmap_size : Nat
  data_bytes : Nat
  index_bytes : Nat
  distance_bytes : Nat
  deriving DecidableEq, Repr

/-- The extra plan fields owned by `multi_cta_search::search`:
`num_cta_per_query` and the length of the per-query intermediate result
buffer (`num_intermediate_results = num_cta_per_query * itopk_size`). -/
structure MultiCtaPlan extends SearchPlanImpl where
  num_cta_per_query : Nat
  num_intermediate_results : Nat
  deriving DecidableEq, Repr

/-- The extra plan field owned by `single_cta_search::search`:
`num_itopk_candidates = num_parents * graph_degree`. -/
structure SingleCtaPlan extends SearchPlanImpl where
  num_itopk_candidates : Nat
  deriving DecidableEq, Repr

/-- `multi_cta_search::search::set_params` (search_multi_cta.cuh lines
199-283).  `mpc` is `deviceProp.multiProcessorCount`.  The body first
overwrites `itopk_size = 32` and `num_parents = 1`, then derives
`num_cta_per_query`, checks the aligned result-buffer size, resolves the
thread-block size and the load bit length, and finally sizes the intermediate
buffers. -/
def multiCtaSetParams (mpc : Nat) (p : SearchPlanImpl) :
    Except ConfigError MultiCtaPlan :=
  let itopk_size := 32
  let num_parents := 1
  let num_cta_per_query := max num_parents (itopk_size / 32)
  let result_buffer_size := itopk_size + num_parents * p.graph_degree
  let result_buffer_size_32 := roundUp32 result_buffer_size
  if 256 < result_buffer_size_32 then .error .resultBufferTooLarge
  else
    let smem_size := 4 * p.max_dim +
      (p.index_bytes + p.distance_bytes) * result_buffer_size_32 +
      4 * num_parents + 4
    let block_size :=
      if p.thread_block_size = 0 then
        grow_block_occupancy p.graph_degree num_parents p.team_size
          num_cta_per_query p.max_queries mpc (grow_block_smem smem_size 64)
      else p.thread_block_size
    if block_size < 64 then .error .blockSizeTooSmall
    else if 1024 < block_size then .error .blockSizeTooLarge
    else
      let total_bit_length := p.dim * p.data_bytes * 8
      match load_bit_length_checks p.load_bit_length total_bit_length with
      | .error e => .error e
      | .ok lbl =>
        let num_intermediate_results := num_cta_per_query * itopk_size
        .ok { p with
              itopk_size := itopk_size
              num_parents := num_parents
              result_buffer_size := result_buffer_size
              smem_size := smem_size
              thread_block_size := block_size
              load_bit_length := lbl
              hashmap_size := p.hashmap_size
              num_cta_per_query := num_cta_per_query
              num_intermediate_results := num_intermediate_results }

/-- `single_cta_search::search::set_params` (search_single_cta.cuh lines
224-357).  `mpc` is `deviceProp.multiProcessorCount`; `radix_smem mi bs`
stands for `topk_by_radix_sort<mi, bs>::smem_size` (topk_by_radix.cuh is not
in this tree, so the value is kept abstract — no claim depends on it). -/
def singleCtaSetParams (mpc : Nat) (radix_smem : Nat → Nat → Nat)
    (p : SearchPlanImpl) : Except ConfigError SingleCtaPlan :=
  let num_itopk_candidates := p.num_parents * p.graph_degree
  let result_buffer_size := p.itopk_size + num_itopk_candidates
  let result_buffer_size_32 := roundUp32 result_buffer_size
  if 512 < p.itopk_size then .error .itopkTooLarge
  else
    let topk_ws_size := 3
    let base_smem_size := 4 * p.max_dim +
      (p.index_bytes + p.distance_bytes) * result_buffer_size_32 +
      4 * hashmap_get_size p.small_hash_bitlen +
      4 * p.num_parents + 4 * topk_ws_size + 4
    let smem_tentative := base_smem_size +
      (if 256 < num_itopk_candidates then
        (if p.itopk_size ≤ 256 then radix_smem 256 1024 * 4
         else radix_smem 512 1024 * 4)
       else 0)
    let block_size :=
      if p.thread_block_size = 0 then
        let bs0 := if 256 < num_itopk_candidates then grow_block_radix 256
                   else 64
        grow_block_occupancy p.graph_degree p.num_parents p.team_size
          1 p.max_queries mpc (grow_block_smem smem_tentative bs0)
      else p.thread_block_size
    if block_size < 64 then .error .blockSizeTooSmall
    else if 1024 < block_size then .error .blockSizeTooLarge
    else
      let total_bit_length := p.dim * p.data_bytes * 8
      match load_bit_length_checks p.load_bit_length total_bit_length with
      | .error e => .error e
      | .ok lbl =>
        let smem_final :=
          if num_itopk_candidates ≤ 256 then smem_tentative
          else
            let mi := if p.itopk_size ≤ 256 then 256 else 512
            let bs := if block_size = 256 then 256
                      else if block_size = 512 then 512 else 1024
            base_smem_size + radix_smem mi bs * 4
        let hashmap_size :=
          if p.small_hash_bitlen = 0 then
            4 * p.max_queries * hashmap_get_size p.hash_bitlen
          else 0
        .ok { p with
              thread_block_size := block_size
              load_bit_length := lbl
              result_buffer_size := result_buffer_size
              smem_size := smem_final
              hashmap_size := hashmap_size
              num_itopk_candidates := num_itopk_candidates }

/-- The outcome of the `SET_KERNEL` dispatch of search_single_cta.cuh: the
template parameters of the selected `search_kernel` instantiation.
`topk_by_bitonic_sort` is the `TOPK_BY_BITONIC_SORT` template argument
(1 in `SET_KERNEL_1B`, 0 in `SET_KERNEL_1R`). -/
structure KernelSelection where
  block_size : Nat
  block_count : Nat
  max_itopk : Nat
  max_candidates : Nat
  topk_by_bitonic_sort : Bool
  load_bit : Nat
  deriving DecidableEq, Repr

/-- `SET_KERNEL_2`: dispatch on `load_bit_length`; any value other than 128 or
64 selects no kernel. -/
def set_kernel_2 (bs bc mi mc : Nat) (bitonic : Bool) (lbl : Nat) :
    Option KernelSelection :=
  if lbl = 128 then some ⟨bs, bc, mi, mc, bitonic, 128⟩
  else if lbl = 64 then some ⟨bs, bc, mi, mc, bitonic, 64⟩
  else none

/-- `SET_KERNEL_1B`: block-size dispatch for the bitonic-sort top-k variant
(`TOPK_BY_BITONIC_SORT = 1`). -/
def set_kernel_1b (mi mc bs lbl : Nat) : Option KernelSelection :=
  if bs = 64 then set_kernel_2 64 16 mi mc true lbl
  else if bs = 128 then set_kernel_2 128 8 mi mc true lbl
  else if bs = 256 then set_kernel_2 256 4 mi mc true lbl
  else if bs = 512 then set_kernel_2 512 2 mi mc true lbl
  else set_kernel_2 1024 1 mi mc true lbl

/-- `SET_KERNEL_1R`: block-size dispatch for the radix-select top-k variant
(`TOPK_BY_BITONIC_SORT = 0`). -/
def set_kernel_1r (mi mc bs lbl : Nat) : Option KernelSelection :=
  if bs = 256 then set_kernel_2 256 4 mi mc false lbl
  else if bs = 512 then set_kernel_2 512 2 mi mc false lbl
  else set_kernel_2 1024 1 mi mc false lbl

/-- The `SET_KERNEL` macro of search_single_cta.cuh (lines 102-166): selects
the kernel instantiation from `num_itopk_candidates`, `itopk_size`,
`block_size` and `load_bit_length`.  Pools of at most 256 candidates go to
`SET_KERNEL_1B` (bitonic), larger pools to `SET_KERNEL_1R` (radix). -/
def set_kernel (num_itopk_candidates itopk_size bs lbl : Nat) :
    Option KernelSelection :=
  if num_itopk_candidates ≤ 64 then
    if itopk_size ≤ 64 then set_kernel_1b 64 64 bs lbl
    else if itopk_size ≤ 128 then set_kernel_1b 128 64 bs lbl
    else if itopk_size ≤ 256 then set_kernel_1b 256 64 bs lbl
    else if itopk_size ≤ 512 then set_kernel_1b 512 64 bs lbl
    else none
  else if num_itopk_candidates ≤ 128 then
    if itopk_size ≤ 64 then set_kernel_1b 64 128 bs lbl
    else if itopk_size ≤ 128 then set_kernel_1b 128 128 bs lbl
    else if itopk_size ≤ 256 then set_kernel_1b 256 128 bs lbl
    else if itopk_size ≤ 512 then set_kernel_1b 512 128 bs lbl
    else none
  else if num_itopk_candidates ≤ 256 then
    if itopk_size ≤ 64 then set_kernel_1b 64 256 bs lbl
    else if itopk_size ≤ 128 then set_kernel_1b 128 256 bs lbl
    else if itopk_size ≤ 256 then set_kernel_1b 256 256 bs lbl
    else if itopk_size ≤ 512 then set_kernel_1b 512 256 bs lbl
    else none
  else
    if itopk_size ≤ 256 then set_kernel_1r 256 32 bs lbl
    else if itopk_size ≤ 512 then set_kernel_1r 512 32 bs lbl
    else none

/-- `multi_cta_search::set_value_batch_kernel` and its launcher
`set_value_batch` (search_multi_cta.cuh lines 108-134).  Device memory is a
map from word offsets to values; each thread `tid < count * batch_size`
writes `val` to `dev_ptr[tid % count + ld * (tid / count)]`; threads with
`tid >= count * batch_size` return without writing. -/
def set_value_batch (mem : Nat → Nat) (ld val count batch_size : Nat) :
    Nat → Nat :=
  fun addr =>
    if (List.range (count * batch_size)).any
        (fun tid => addr == tid % count + ld * (tid / count)) then val
    else mem addr

/-- The hash-table initialization performed by
`multi_cta_search::search::operator()` before the kernel launch
(search_multi_cta.cuh lines 304-307): `set_value_batch(hashmap.data(),
hash_size, get_max_value<uint32_t>(), hash_size, num_queries, stream)` with
`hash_size = hashmap::get_size(hash_bitlen)`. -/
def multi_cta_init_hashmap (mem : Nat → Nat) (hash_bitlen num_queries : Nat) :
    Nat → Nat :=
  set_value_batch mem (hashmap_get_size hash_bitlen) max_value_u32
    (hashmap_get_size hash_bitlen) num_queries

/-- Candidate entries are (distance, index) pairs, ordered by distance.  The
engine only needs a total order on distances, so distances are modelled as
`Nat`. -/
def distLE (a b : Nat × Nat) : Prop := a.1 ≤ b.1

instance : DecidableRel distLE := fun a b => Nat.decLe a.1 b.1

instance : IsTotal (Nat × Nat) distLE := ⟨fun a b => Nat.le_total a.1 b.1⟩

instance : IsTrans (Nat × Nat) distLE := ⟨fun _ _ _ h1 h2 => Nat.le_trans h1 h2⟩

/-- Modelled from the spec: `_cuann_find_topk`
(topk_for_cagra/topk_core.cuh is not in this tree).  The bounded top-k
selector: "given a candidate pool of M (distance, id) pairs, produce the K
smallest, sorted ascending". -/
def cuann_find_topk (k : Nat) (pool : List (Nat × Nat)) : List (Nat × Nat) :=
  (List.insertionSort distLE pool).take k

/-- The per-query slice of the intermediate result buffer written by the
multi-CTA traversal kernel: `num_intermediate_results` consecutive entries
starting at offset `query * num_intermediate_results` (the leading dimension
passed to `_cuann_find_topk` in search_multi_cta.cuh lines 339-353).
`inter` maps a buffer offset to the (distance, index) entry stored there. -/
def intermediate_pool (inter : Nat → Nat × Nat) (nir query : Nat) :
    List (Nat × Nat) :=
  (List.range nir).map fun i => inter (query * nir + i)

/-- The final reduction of `multi_cta_search::search::operator()`
(search_multi_cta.cuh lines 337-354): per query, select the `topk` smallest
entries of the intermediate pool via the bounded selector. -/
def multi_cta_search_query (q : MultiCtaPlan) (topk : Nat)
    (inter : Nat → Nat × Nat) (query : Nat) : List (Nat × Nat) :=
  cuann_find_topk topk (intermediate_pool inter q.num_intermediate_results query)

/-- `ivf_flat::detail::serialization_version` (ivf_flat_build.cuh line 440). -/
def serialization_version : Nat := 3

/-- The contents of one inverted list (`list_data<T, IdxT, SizeT>`): the
stored row count, the flattened `size × dim` data block, and the source ids
of the rows. -/
structure ListData where
  size : Nat
  data : List Nat
  indices : List Nat
  deriving DecidableEq, Repr

/-- The parts of the IVF-flat `index` that the serializer reads and that
search consumes: header scalars, per-list sizes, cluster centers, optional
center norms, and the inverted lists themselves. -/
structure IvfFlatIndex where
  size : Nat
  dim : Nat
  n_lists : Nat
  metric : Nat
  veclen : Nat
  adaptive_centers : Bool
  list_sizes : List Nat
  centers : List Nat
  center_norms : Option (List Nat)
  lists : List ListData
  deriving DecidableEq, Repr

/-- Serialized streams are flat token lists; every scalar is one token and an
mdspan contributes its elements in order.  `bool` scalars are 1/0. -/
def bool_tok (b : Bool) : Nat := if b then 1 else 0

/-- `ivf_flat::detail::serialize_list` (ivf_flat_build.cuh lines 454-472):
write the (possibly overridden) size; when it is zero write nothing else,
otherwise write the first `size × dim` data elements and the first `size`
ids. -/
def serialize_list (ld : ListData) (dim size_override : Nat) : List Nat :=
  size_override ::
    (if size_override = 0 then []
     else ld.data.take (size_override * dim) ++ ld.indices.take size_override)

/-- `ivf_flat::detail::serialize` (ivf_flat_build.cuh lines 516-556): version,
size, dim, n_lists, metric, veclen, adaptive_centers, the `list_sizes`
mdspan, the `centers` mdspan, a has-norms flag followed by the norms when
present, the host copy of `list_sizes` again, then every list in label
order with its size override taken from `list_sizes`. -/
def ivf_serialize (i : IvfFlatIndex) : List Nat :=
  [serialization_version, i.size, i.dim, i.n_lists, i.metric, i.veclen,
    bool_tok i.adaptive_centers] ++
  i.list_sizes ++ i.centers ++
  (match i.center_norms with
   | some ns => 1 :: ns
   | none => [0]) ++
  i.list_sizes ++
  ((List.range i.n_lists).map fun label =>
    serialize_list (i.lists.getD label ⟨0, [], []⟩) i.dim
      (i.list_sizes.getD label 0)).flatten

/-- Modelled from the spec: the IVF-flat `index` constructor
`index<T, IdxT>(handle, metric, n_lists, adaptive_centers, dim)` (the index
type header is not in this tree).  A freshly constructed index holds no
vectors: every list is empty and the total size is zero. -/
def ivf_fresh_index (metric n_lists : Nat) (ac : Bool) (dim : Nat) :
    IvfFlatIndex :=
  { size := 0
    dim := dim
    n_lists := n_lists
    metric := metric
    veclen := 1
    adaptive_centers := ac
    list_sizes := List.replicate n_lists 0
    centers := []
    center_norms := none
    lists := List.replicate n_lists ⟨0, [], []⟩ }

/-- Read one scalar token from the stream. -/
def read_scalar : List Nat → Except String (Nat × List Nat)
  | [] => .error "unexpected end of stream"
  | x :: rest => .ok (x, rest)

/-- `ivf_flat::detail::deserialize` (ivf_flat_build.cuh lines 567-609): check
the version, read the six header scalars, and return an index constructed
from `(metric, n_lists, adaptive_centers, dim)` alone — the block that would
restore the data, indices, list sizes, centers and norms is commented out in
the source (`/* TODO ... */`), so the rest of the stream is ignored and
`n_rows` and `veclen` are read but unused. -/
def ivf_deserialize (s : List Nat) : Except String IvfFlatIndex := do
  let (ver, s) ← read_scalar s
  if ver ≠ serialization_version then
    .error "serialization version mismatch"
  else do
    let (_n_rows, s) ← read_scalar s
    let (dim, s) ← read_scalar s
    let (n_lists, s) ← read_scalar s
    let (metric, s) ← read_scalar s
    let (_veclen, s) ← read_scalar s
    let (ac, _s) ← read_scalar s
    pure (ivf_fresh_index metric n_lists (ac != 0) dim)

/-- A concrete one-vector IVF-flat index: one list holding the 1-dimensional
vector `[5]` with source id 7. -/
def sample_index : IvfFlatIndex :=
  { size := 1
    dim := 1
    n_lists := 1
    metric := 0
    veclen := 1
    adaptive_centers := false
    list_sizes := [1]
    centers := [0]
    center_norms := none
    lists := [⟨1, [5], [7]⟩] }

/-- A concrete search-parameter configuration accepted by both plans:
`thread_block_size` and `load_bit_length` are caller-fixed so resolution is
hardware-independent, and `dim * data_bytes * 8 = 512` is divisible by 128. -/
def sample_plan : SearchPlanImpl :=
  { max_queries := 1
    itopk_size := 64
    team_size := 8
    num_parents := 2
    min_iterations := 0
    max_iterations := 10
    load_bit_length := 128
    thread_block_size := 64
    max_dim := 128
    dim := 16
    graph_degree := 32
    topk := 16
    hash_bitlen := 8
    small_hash_bitlen := 0
    result_buffer_size := 0
    smem_size := 0
    hashmap_size := 0
    data_bytes := 4
    index_bytes := 4
    distance_bytes := 4 }

/-- The plan that `multiCtaSetParams` resolves from `sample_plan`. -/
def sample_multi_plan : MultiCtaPlan :=
  { max_queries := 1
    itopk_size := 32
    team_size := 8
    num_parents := 1
    min_iterations := 0
    max_iterations := 10
    load_bit_length := 128
    thread_block_size := 64
    max_dim := 128
    dim := 16
    graph_degree := 32
    topk := 16
    hash_bitlen := 8
    small_hash_bitlen := 0
    result_buffer_size := 64
    smem_size := 1032
    hashmap_size := 0
    data_bytes := 4
    index_bytes := 4
    distance_bytes := 4
    num_cta_per_query := 1
    num_intermediate_results := 32 }

/-! ## Helper lemmas -/

/-- `load_bit_length_checks` only raises the two load-bit-length error tags. -/
lemma load_bit_length_checks_error_tags {u t : Nat} {e : ConfigError}
    (h : load_bit_length_checks u t = Except.error e) :
    e = ConfigError.loadBitLengthNotDivisor ∨
    e = ConfigError.loadBitLengthTooSmall := by
  unfold load_bit_length_checks at h
  dsimp only at h
  repeat' split at h
  all_goals simp_all

/-- Every successful run of `multiCtaSetParams` produces a plan with
`itopk_size = 32`, `num_parents = 1`, `num_cta_per_query = 1` and a 32-entry
intermediate pool: the body overwrites the first two fields before deriving
the rest. -/
lemma multiCtaSetParams_ok_shape {mpc : Nat} {p : SearchPlanImpl}
    {q : MultiCtaPlan} (h : multiCtaSetParams mpc p = Except.ok q) :
    q.itopk_size = 32 ∧ q.num_parents = 1 ∧ q.num_cta_per_query = 1 ∧
    q.num_intermediate_results = 32 := by
  unfold multiCtaSetParams at h
  dsimp only at h
  repeat' split at h
  all_goals first
    | exact Except.noConfusion h
    | (injection h with h
       subst h
       exact ⟨rfl, rfl,
         show max 1 (32 / 32) = 1 by decide,
         show max 1 (32 / 32) * 32 = 32 by decide⟩)

/-! ## Claim theorems -/

/-- Claim C10: for every user-supplied search-parameter configuration, the
multi-group plan construction overwrites `itopk_size` to 32 and `num_parents`
to 1 before deriving any other execution parameter, so every successfully
resolved multi-CTA plan has `num_cta_per_query = 1` and an intermediate
reduction pool of exactly 32 entries per query, regardless of the requested
`itopk_size` and `num_parents`. -/
theorem multi_cta_overwrites_itopk_and_parents (mpc : Nat)
    (p : SearchPlanImpl) (q : MultiCtaPlan)
    (h : multiCtaSetParams mpc p = Except.ok q) :
    q.itopk_size = 32 ∧ q.num_parents = 1 ∧ q.num_cta_per_query = 1 ∧
    q.num_intermediate_results = 32 :=
  multiCtaSetParams_ok_shape h

/-- Witness for C10: the overwrite is observable on a concrete configuration
that requested `itopk_size = 64` and `num_parents = 2`. -/
theorem multi_cta_overwrites_itopk_and_parents_witness :
    sample_multi_plan.itopk_size = 32 ∧ sample_multi_plan.num_parents = 1 ∧
    sample_multi_plan.num_cta_per_query = 1 ∧
    sample_multi_plan.num_intermediate_results = 32 :=
  multi_cta_overwrites_itopk_and_parents 1 sample_plan sample_multi_plan rfl

/-- Claim C4: in the multi-group plan, `num_cta_per_query` equals
`max(num_parents, itopk_size / 32)` for the plan's values of `num_parents`
and `itopk_size` (search_multi_cta.cuh line 203). -/
theorem num_cta_per_query_eq_max_formula (mpc : Nat) (p : SearchPlanImpl)
    (q : MultiCtaPlan) (h : multiCtaSetParams mpc p = Except.ok q) :
    q.num_cta_per_query = max q.num_parents (q.itopk_size / 32) := by
  obtain ⟨h1, h2, h3, _⟩ := multiCtaSetParams_ok_shape h
  rw [h1, h2, h3]
  decide

/-- Witness for C4 at a concrete resolved plan. -/
theorem num_cta_per_query_eq_max_formula_witness :
    sample_multi_plan.num_cta_per_query =
      max sample_multi_plan.num_parents (sample_multi_plan.itopk_size / 32) :=
  num_cta_per_query_eq_max_formula 1 sample_plan sample_multi_plan rfl

/-- Claim C5: single-group plan resolution reports a configuration error (and
produces no plan) exactly when the requested frontier size `itopk_size`
exceeds 512; for `itopk_size ≤ 512` this check passes
(search_single_cta.cuh lines 232-233). -/
theorem single_cta_itopk_size_check (mpc : Nat)
    (radix_smem : Nat → Nat → Nat) (p : SearchPlanImpl) :
    singleCtaSetParams mpc radix_smem p =
      Except.error ConfigError.itopkTooLarge ↔ 512 < p.itopk_size := by
  constructor
  · intro h
    by_contra hle
    unfold singleCtaSetParams at h
    rw [if_neg hle] at h
    dsimp only at h
    repeat' split at h
    all_goals try simp_all
    all_goals
    · rename_i heq
      rcases load_bit_length_checks_error_tags heq with hh | hh <;>
        exact ConfigError.noConfusion hh
  · intro h
    unfold singleCtaSetParams
    rw [if_pos h]

/-- Claim C6: multi-group plan resolution reports a configuration error
exactly when the result-buffer size `itopk_size + num_parents * graph_degree`
— for the plan's values `itopk_size = 32`, `num_parents = 1` — rounded up to
a multiple of 32 exceeds 256; when it is at most 256 this check passes
(search_multi_cta.cuh lines 204-208). -/
theorem multi_cta_result_buffer_check (mpc : Nat) (p : SearchPlanImpl) :
    multiCtaSetParams mpc p = Except.error ConfigError.resultBufferTooLarge ↔
      256 < roundUp32 (32 + 1 * p.graph_degree) := by
  constructor
  · intro h
    by_contra hle
    unfold multiCtaSetParams at h
    rw [if_neg hle] at h
    dsimp only at h
    repeat' split at h
    all_goals try simp_all
    all_goals
    · rename_i heq
      rcases load_bit_length_checks_error_tags heq with hh | hh <;>
        exact ConfigError.noConfusion hh
  · intro h
    unfold multiCtaSetParams
    rw [if_pos h]

/-- Claim C7: when the vector load granularity is unset, plan resolution sets
it to 128 bits if 128 divides `dim * sizeof(DATA_T) * 8`, otherwise to 64
bits if 64 divides it; any value that survives the checks — auto-resolved or
user-specified — divides the total bit width and is at least 64, every other
value being rejected with a configuration error (search_single_cta.cuh lines
303-317, search_multi_cta.cuh lines 252-268, both of which execute this
block). -/
theorem load_bit_length_resolution (user total : Nat) :
    (user = 0 → total % 128 = 0 →
      load_bit_length_checks user total = Except.ok 128) ∧
    (user = 0 → total % 128 ≠ 0 → total % 64 = 0 →
      load_bit_length_checks user total = Except.ok 64) ∧
    (∀ lbl, load_bit_length_checks user total = Except.ok lbl →
      total % lbl = 0 ∧ 64 ≤ lbl) ∧
    (user ≠ 0 → total % user ≠ 0 ∨ user < 64 →
      ∃ e, load_bit_length_checks user total = Except.error e) := by
  refine ⟨?_, ?_, ?_, ?_⟩
  · intro hu h128
    subst hu
    unfold load_bit_length_checks resolve_load_bit_loop resolve_load_bit_halve
    simp [h128]
  · intro hu h128 h64
    subst hu
    unfold load_bit_length_checks resolve_load_bit_loop
    simp [resolve_load_bit_halve, h128, h64]
  · intro lbl h
    unfold load_bit_length_checks at h
    dsimp only at h
    repeat' split at h
    all_goals simp_all
  · intro hu hbad
    unfold load_bit_length_checks
    rw [if_neg hu]
    dsimp only
    rcases hbad with hb | hb
    · rw [if_pos hb]
      exact ⟨_, rfl⟩
    · by_cases hdiv : total % user ≠ 0
      · rw [if_pos hdiv]
        exact ⟨_, rfl⟩
      · rw [if_neg hdiv, if_pos hb]
        exact ⟨_, rfl⟩

/-- Witness for C7: `dim * sizeof * 8 = 128` resolves to 128;
`192` (divisible by 64 but not 128) resolves to 64; the resolved 64 divides
192 and meets the minimum; a user-specified granularity of 96 that does not
divide 512 is rejected. -/
theorem load_bit_length_resolution_witness :
    load_bit_length_checks 0 128 = Except.ok 128 ∧
    load_bit_length_checks 0 192 = Except.ok 64 ∧
    (192 % 64 = 0 ∧ 64 ≤ 64) ∧
    ∃ e, load_bit_length_checks 96 512 = Except.error e :=
  ⟨(load_bit_length_resolution 0 128).1 rfl (by decide),
   (load_bit_length_resolution 0 192).2.1 rfl (by decide) (by decide),
   (load_bit_length_resolution 0 192).2.2.1 64
     ((load_bit_length_resolution 0 192).2.1 rfl (by decide) (by decide)),
   (load_bit_length_resolution 96 512).2.2.2 (by decide) (Or.inl (by decide))⟩

/-- `SET_KERNEL_1B` only ever selects a bitonic-sort kernel. -/
lemma set_kernel_1b_bitonic {mi mc bs lbl : Nat} {k : KernelSelection}
    (h : set_kernel_1b mi mc bs lbl = some k) :
    k.topk_by_bitonic_sort = true := by
  unfold set_kernel_1b set_kernel_2 at h
  split_ifs at h <;>
    first
      | exact Option.noConfusion h
      | (injection h with h; subst h; rfl)

/-- `SET_KERNEL_1R` only ever selects a radix-select kernel. -/
lemma set_kernel_1r_radix {mi mc bs lbl : Nat} {k : KernelSelection}
    (h : set_kernel_1r mi mc bs lbl = some k) :
    k.topk_by_bitonic_sort = false := by
  unfold set_kernel_1r set_kernel_2 at h
  split_ifs at h <;>
    first
      | exact Option.noConfusion h
      | (injection h with h; subst h; rfl)

/-- Claim C2: in the single-group plan, whenever `SET_KERNEL` selects a
kernel, the selected variant performs top-k by bitonic sort if and only if
the candidate pool size `num_itopk_candidates = num_parents * graph_degree`
is at most 256; any larger pool gets the radix-select variant
(search_single_cta.cuh lines 102-166, with `num_itopk_candidates` set at
line 226). -/
theorem bitonic_topk_iff_pool_at_most_256 (num_parents graph_degree
    itopk_size bs lbl : Nat) (k : KernelSelection)
    (h : set_kernel (num_parents * graph_degree) itopk_size bs lbl = some k) :
    k.topk_by_bitonic_sort = true ↔ num_parents * graph_degree ≤ 256 := by
  unfold set_kernel at h
  split_ifs at h
  all_goals first
    | exact Option.noConfusion h
    | (rw [set_kernel_1b_bitonic h]
       simp
       omega)
    | (rw [set_kernel_1r_radix h]
       simp
       omega)

/-- Witness for C2: a pool of 64 candidates with block size 64 and 128-bit
loads selects the bitonic variant. -/
theorem bitonic_topk_iff_pool_at_most_256_witness :
    set_kernel (2 * 32) 64 64 128 = some ⟨64, 16, 64, 64, true, 128⟩ ∧
    (KernelSelection.topk_by_bitonic_sort ⟨64, 16, 64, 64, true, 128⟩ = true ↔
      2 * 32 ≤ 256) :=
  ⟨rfl, bitonic_topk_iff_pool_at_most_256 2 32 64 64 128 _ rfl⟩

/-- Claim C1: for every valid multi-CTA plan and every query in the batch,
the search result for that query holds exactly `topk` (index, distance)
pairs, sorted ascending by distance (search_multi_cta.cuh lines 337-354;
the bounded selector is modelled from the spec). -/
theorem multi_cta_search_returns_topk_sorted (mpc : Nat)
    (p : SearchPlanImpl) (q : MultiCtaPlan)
    (_hq : multiCtaSetParams mpc p = Except.ok q)
    (inter : Nat → Nat × Nat) (num_queries topk : Nat)
    (htopk : topk ≤ q.num_intermediate_results)
    (query : Nat) (_hquery : query < num_queries) :
    (multi_cta_search_query q topk inter query).length = topk ∧
    List.Sorted distLE (multi_cta_search_query q topk inter query) := by
  constructor
  · unfold multi_cta_search_query cuann_find_topk
    rw [List.length_take, List.length_insertionSort]
    unfold intermediate_pool
    rw [List.length_map, List.length_range]
    omega
  · unfold multi_cta_search_query cuann_find_topk
    exact List.Pairwise.sublist (List.take_sublist _ _)
      (List.sorted_insertionSort distLE _)

/-- Witness for C1 on a concrete resolved plan, a one-query batch and
`topk = 16`. -/
theorem multi_cta_search_returns_topk_sorted_witness :
    (multi_cta_search_query sample_multi_plan 16 (fun i => (i, i)) 0).length
      = 16 ∧
    List.Sorted distLE
      (multi_cta_search_query sample_multi_plan 16 (fun i => (i, i)) 0) :=
  multi_cta_search_returns_topk_sorted 1 sample_plan sample_multi_plan rfl
    (fun i => (i, i)) 1 16 (by decide) 0 (by decide)

/-- Claim C3: in multi-group mode, the final per-query result is produced by
a second top-k reduction whose input pool is exactly the
`num_cta_per_query * itopk_size` intermediate entries of that query, from
which the `topk` smallest are selected: the result together with some rest
is a permutation of the pool, and every selected entry is at most every
unselected one (search_multi_cta.cuh lines 270-283 and 337-354; the bounded
selector is modelled from the spec). -/
theorem multi_cta_second_reduction_pool (mpc : Nat) (p : SearchPlanImpl)
    (q : MultiCtaPlan) (hq : multiCtaSetParams mpc p = Except.ok q)
    (inter : Nat → Nat × Nat) (topk query : Nat) :
    (intermediate_pool inter q.num_intermediate_results query).length =
      q.num_cta_per_query * q.itopk_size ∧
    multi_cta_search_query q topk inter query =
      cuann_find_topk topk
        (intermediate_pool inter q.num_intermediate_results query) ∧
    ∃ rest,
      (multi_cta_search_query q topk inter query ++ rest).Perm
        (intermediate_pool inter q.num_intermediate_results query) ∧
      ∀ x ∈ multi_cta_search_query q topk inter query, ∀ y ∈ rest,
        distLE x y := by
  obtain ⟨h1, _, h3, h4⟩ := multiCtaSetParams_ok_shape hq
  refine ⟨?_, rfl, ?_⟩
  · unfold intermediate_pool
    rw [List.length_map, List.length_range, h1, h3, h4]
  · refine ⟨(List.insertionSort distLE
      (intermediate_pool inter q.num_intermediate_results query)).drop topk,
      ?_, ?_⟩
    · unfold multi_cta_search_query cuann_find_topk
      rw [List.take_append_drop]
      exact List.perm_insertionSort distLE _
    · intro x hx y hy
      exact (List.sorted_insertionSort distLE _).rel_of_mem_take_of_mem_drop
        hx hy

/-- Witness for C3 on a concrete resolved plan. -/
theorem multi_cta_second_reduction_pool_witness :
    (intermediate_pool (fun i => (i, i))
        sample_multi_plan.num_intermediate_results 0).length =
      sample_multi_plan.num_cta_per_query * sample_multi_plan.itopk_size ∧
    multi_cta_search_query sample_multi_plan 16 (fun i => (i, i)) 0 =
      cuann_find_topk 16
        (intermediate_pool (fun i => (i, i))
          sample_multi_plan.num_intermediate_results 0) ∧
    ∃ rest,
      (multi_cta_search_query sample_multi_plan 16 (fun i => (i, i)) 0 ++
        rest).Perm
        (intermediate_pool (fun i => (i, i))
          sample_multi_plan.num_intermediate_results 0) ∧
      ∀ x ∈ multi_cta_search_query sample_multi_plan 16 (fun i => (i, i)) 0,
        ∀ y ∈ rest, distLE x y :=
  multi_cta_second_reduction_pool 1 sample_plan sample_multi_plan rfl
    (fun i => (i, i)) 16 0

/-- Claim C9: before launching the multi-group traversal kernel, the driver
writes the empty sentinel (the maximum `uint32` value) into every one of the
`2^hash_bitlen` slots of each of the `num_queries` per-query visited-set
tables, and `set_value_batch` modifies no slot outside those
`num_queries * 2^hash_bitlen` (search_multi_cta.cuh lines 108-134 and
304-307; `hashmap::get_size` is modelled from the spec). -/
theorem hashmap_init_writes_exactly_batch_slots (mem : Nat → Nat)
    (hash_bitlen num_queries addr : Nat) :
    multi_cta_init_hashmap mem hash_bitlen num_queries addr =
      if addr < hashmap_get_size hash_bitlen * num_queries then max_value_u32
      else mem addr := by
  unfold multi_cta_init_hashmap set_value_batch
  have key : ((List.range (hashmap_get_size hash_bitlen * num_queries)).any
      fun tid => addr == tid % hashmap_get_size hash_bitlen +
        hashmap_get_size hash_bitlen * (tid / hashmap_get_size hash_bitlen))
      = true ↔ addr < hashmap_get_size hash_bitlen * num_queries := by
    rw [List.any_eq_true]
    constructor
    · rintro ⟨tid, htid, heq⟩
      rw [List.mem_range] at htid
      rw [beq_iff_eq, Nat.mod_add_div] at heq
      omega
    · intro hlt
      exact ⟨addr, List.mem_range.mpr hlt,
        by rw [beq_iff_eq, Nat.mod_add_div]⟩
  by_cases hlt : addr < hashmap_get_size hash_bitlen * num_queries
  · rw [if_pos (key.mpr hlt), if_pos hlt]
  · rw [if_neg hlt, if_neg]
    intro hc
    exact hlt (key.mp hc)

/-- Claim C8 (refuted on the code): serialize-then-deserialize is not a
round trip.  On a concrete one-vector index the deserializer returns the
freshly-constructed empty index — the block of `deserialize` that would
restore the lists, sizes, centers and norms is commented out in
ivf_flat_build.cuh (lines 588-606), so the reconstructed index holds no
vectors and cannot reproduce the original index's search results. -/
theorem ivf_serialize_deserialize_not_roundtrip :
    ivf_deserialize (ivf_serialize sample_index) =
      Except.ok (ivf_fresh_index 0 1 false 1) ∧
    (ivf_fresh_index 0 1 false 1).lists ≠ sample_index.lists ∧
    (ivf_fresh_index 0 1 false 1).size ≠ sample_index.size :=
  ⟨rfl, by decide, by decide⟩
